import Mathlib

/-!
Shallow embedding of `src/lib.rs` of the `coin` crate: a bit-flip
resistant Boolean type `Coin` storing a full byte in a `Cell<u8>`.
Mutation through the `Cell` is modelled by explicit state passing:
each operation that may rewrite the storage byte returns the updated
`Coin` value(s) alongside its result.
-/

/-- The `Coin` struct: `pub struct Coin(Cell<u8>);`.  The storage byte is
modelled as a `Nat`; well-formed states keep it below 256. -/
structure Coin where
  cell : Nat
deriving DecidableEq, Repr

/-- Number of 1-bits among the 8 bits of the storage byte, as computed by
`u8::count_ones`. -/
def count_ones (x : Nat) : Nat :=
  (List.range 8).countP (fun i => x.testBit i)

/-- Number of 0-bits among the 8 bits of the storage byte, as computed by
`u8::count_zeros`. -/
def count_zeros (x : Nat) : Nat :=
  (List.range 8).countP (fun i => !(x.testBit i))

/-- `Coin::truthy`: a coin whose cell holds `u8::MAX`. -/
def Coin.truthy : Coin := ⟨255⟩

/-- `Coin::falsey`: a coin whose cell holds `u8::MIN`. -/
def Coin.falsey : Coin := ⟨0⟩

/-- `Coin::to_bool`: `val.count_ones() >= val.count_zeros()`.  Reads the
cell and does not write it. -/
def Coin.to_bool (c : Coin) : Bool :=
  decide (count_ones c.cell ≥ count_zeros c.cell)

/-- `Coin::degauss`: rewrites the cell to `u8::MAX` when `to_bool` is
true and to `u8::MIN` otherwise. -/
def Coin.degauss (c : Coin) : Coin :=
  match c.to_bool with
  | true => ⟨255⟩
  | false => ⟨0⟩

/-- `impl From<bool> for Coin`. -/
def from_bool (b : Bool) : Coin :=
  match b with
  | true => Coin.truthy
  | false => Coin.falsey

/-- `impl From<&Coin> for bool`: calls `to_bool`; the second component is
the state of the borrowed coin afterwards. -/
def bool_from_coin_ref (c : Coin) : Bool × Coin :=
  (c.to_bool, c)

/-- `impl From<Coin> for bool`: consumes the coin and calls `to_bool`. -/
def bool_from_coin (c : Coin) : Bool :=
  c.to_bool

/-- `Coin::to_bool` viewed as a state transformer, to express that the
plain conversion call performs no write to the cell. -/
def toBoolOp (c : Coin) : Bool × Coin :=
  (c.to_bool, c)

/-- `impl PartialEq for Coin`: degausses both operands, then compares the
evaluated truth values.  Returns the result and both updated states. -/
def coinEq (a b : Coin) : Bool × Coin × Coin :=
  let a1 := a.degauss
  let b1 := b.degauss
  (a1.to_bool == b1.to_bool, a1, b1)

/-- Derived `Ord` on `bool` in Rust: `false < true`. -/
def boolCmp (a b : Bool) : Ordering :=
  match a, b with
  | false, false => Ordering.eq
  | false, true => Ordering.lt
  | true, false => Ordering.gt
  | true, true => Ordering.eq

/-- `impl Ord for Coin`: degausses both operands, then compares the
evaluated truth values with `bool`'s ordering. -/
def coinCmp (a b : Coin) : Ordering × Coin × Coin :=
  let a1 := a.degauss
  let b1 := b.degauss
  (boolCmp a1.to_bool b1.to_bool, a1, b1)

/-- `impl PartialOrd for Coin`: degausses both operands, then returns
`Some` of the comparison of the evaluated truth values. -/
def coinPartialCmp (a b : Coin) : Option Ordering × Coin × Coin :=
  let a1 := a.degauss
  let b1 := b.degauss
  (some (boolCmp a1.to_bool b1.to_bool), a1, b1)

/-- `impl Hash for Coin`: degausses the coin, then feeds the evaluated
truth value (never the raw byte) to the hasher.  The first component is
the value fed to the hasher, the second the updated state. -/
def coinHash (c : Coin) : Bool × Coin :=
  let c1 := c.degauss
  (c1.to_bool, c1)

/-- Degaussing does not change the evaluated truth value. -/
theorem Coin.to_bool_degauss (c : Coin) : c.degauss.to_bool = c.to_bool := by
  unfold Coin.degauss
  cases h : c.to_bool <;> decide

/-- Degaussing is idempotent on the state. -/
theorem Coin.degauss_degauss (c : Coin) : c.degauss.degauss = c.degauss := by
  conv_lhs => rw [Coin.degauss, Coin.to_bool_degauss]
  rw [Coin.degauss]

/-- The canonical all-ones byte evaluates true and the canonical
all-zeros byte evaluates false. -/
theorem Coin.to_bool_truthy : Coin.truthy.to_bool = true := by decide

set_option maxRecDepth 8192

/-- C1 counterexample: the concrete byte `0b11000011` (4 bits flipped
from the canonical all-ones byte) evaluates to `true`, not `false` as the
claim states; this matches the repository's `four_bits_flipped` test,
which asserts `coin.to_bool()` on this byte. -/
theorem coin_C1_counterexample : Coin.to_bool ⟨0b11000011⟩ = true := by decide

/-- C1 (amended): starting from the canonical all-ones byte, flipping up
to 4 bits to 0 still evaluates true and flipping 5 or more evaluates
false (the number of flips from all-ones is `count_zeros`); starting from
the canonical all-zeros byte, flipping up to 3 bits to 1 still evaluates
false and flipping 4 or more evaluates true (the number of flips from
all-zeros is `count_ones`).  In particular `0b11000011` (4 flips from
all-ones) evaluates to true. -/
theorem coin_C1 (x : Nat) (hx : x < 256) :
    (Coin.to_bool ⟨x⟩ = true ↔ count_zeros x ≤ 4) ∧
    (Coin.to_bool ⟨x⟩ = false ↔ count_ones x ≤ 3) ∧
    Coin.to_bool ⟨0b11000011⟩ = true := by
  revert x hx
  decide

/-- Witness for C1 at the byte `0b11000011 = 195`. -/
theorem coin_C1_witness :
    (195 : Nat) < 256 ∧
    ((Coin.to_bool ⟨195⟩ = true ↔ count_zeros 195 ≤ 4) ∧
     (Coin.to_bool ⟨195⟩ = false ↔ count_ones 195 ≤ 3) ∧
     Coin.to_bool ⟨0b11000011⟩ = true) :=
  ⟨by decide, coin_C1 195 (by decide)⟩

/-- C2: for every 8-bit storage byte `x`, `to_bool` on a coin holding `x`
returns true iff `count_ones x ≥ count_zeros x`, equivalently iff
`count_ones x ≥ 4`. -/
theorem coin_C2 (x : Nat) (hx : x < 256) :
    (Coin.to_bool ⟨x⟩ = true ↔ count_ones x ≥ count_zeros x) ∧
    (Coin.to_bool ⟨x⟩ = true ↔ count_ones x ≥ 4) := by
  revert x hx
  decide

/-- Witness for C2 at the byte 170 = `0b10101010`. -/
theorem coin_C2_witness :
    (170 : Nat) < 256 ∧
    ((Coin.to_bool ⟨170⟩ = true ↔ count_ones 170 ≥ count_zeros 170) ∧
     (Coin.to_bool ⟨170⟩ = true ↔ count_ones 170 ≥ 4)) :=
  ⟨by decide, coin_C2 170 (by decide)⟩

/-- C3: round trip — converting a Boolean to a `Coin` and back yields the
same Boolean. -/
theorem coin_C3 (b : Bool) : (from_bool b).to_bool = b := by
  cases b <;> decide

/-- C9: construction from a Boolean is total (a total Lean function) and
produces the canonical patterns: `from_bool true` holds the all-ones byte
255 and `from_bool false` holds the all-zeros byte 0. -/
theorem coin_C9 :
    (from_bool true).cell = 255 ∧ (from_bool false).cell = 0 ∧
    ∀ b : Bool, (from_bool b).cell = if b then 255 else 0 := by
  refine ⟨rfl, rfl, ?_⟩
  intro b
  cases b <;> rfl

/-- C10: the decision boundary is asymmetric — a byte with exactly four
1-bits evaluates true (ties go to true); any byte reached from the
canonical all-ones byte by at most 4 flips (`count_zeros x ≤ 4`) still
evaluates true, while a byte reached from the canonical all-zeros byte by
at most 3 flips (`count_ones x ≤ 3`) still evaluates false, and one with
exactly 4 flips from all-zeros (such as `0b00001111`) already evaluates
true, so the all-zeros byte tolerates only 3 flips. -/
theorem coin_C10 (x : Nat) (hx : x < 256) :
    (count_ones x = 4 → Coin.to_bool ⟨x⟩ = true) ∧
    (count_zeros x ≤ 4 → Coin.to_bool ⟨x⟩ = true) ∧
    (count_ones x ≤ 3 → Coin.to_bool ⟨x⟩ = false) ∧
    Coin.to_bool ⟨0b00001111⟩ = true := by
  revert x hx
  decide

/-- Witness for C10 at the byte 15 = `0b00001111`. -/
theorem coin_C10_witness :
    (15 : Nat) < 256 ∧
    ((count_ones 15 = 4 → Coin.to_bool ⟨15⟩ = true) ∧
     (count_zeros 15 ≤ 4 → Coin.to_bool ⟨15⟩ = true) ∧
     (count_ones 15 ≤ 3 → Coin.to_bool ⟨15⟩ = false) ∧
     Coin.to_bool ⟨0b00001111⟩ = true) :=
  ⟨by decide, coin_C10 15 (by decide)⟩

/-- Degaussing rewrites the cell to the canonical pattern of the
evaluated truth value. -/
theorem Coin.cell_degauss (c : Coin) :
    c.degauss.cell = if c.to_bool then 255 else 0 := by
  unfold Coin.degauss
  cases c.to_bool <;> rfl

/-- C4: equality of coins is determined by the evaluated truth values
alone, never by the raw bytes: for all coins, `eq` returns true iff the
two evaluated truth values agree.  In particular two coins built from
`true` whose bytes have diverged by corruption (`0b11111011` and
`0b11011111`) still compare equal. -/
theorem coin_C4 (a b : Coin) :
    ((coinEq a b).1 = true ↔ a.to_bool = b.to_bool) ∧
    (coinEq ⟨0b11111011⟩ ⟨0b11011111⟩).1 = true := by
  constructor
  · simp [coinEq, Coin.to_bool_degauss]
  · decide

/-- C5: equal coins hash equal — if two coins compare equal, the value
each feeds to the hasher (the evaluated truth value after healing, never
the raw byte) is the same. -/
theorem coin_C5 (a b : Coin) (h : (coinEq a b).1 = true) :
    (coinHash a).1 = (coinHash b).1 := by
  simp only [coinEq, Coin.to_bool_degauss, beq_iff_eq] at h
  simp only [coinHash, Coin.to_bool_degauss]
  exact h

/-- Witness for C5: the canonical true coin and a corrupted true coin
compare equal and feed the same value to the hasher. -/
theorem coin_C5_witness :
    (coinEq ⟨255⟩ ⟨0b11111011⟩).1 = true ∧
    (coinHash ⟨255⟩).1 = (coinHash ⟨0b11111011⟩).1 :=
  ⟨by decide, coin_C5 ⟨255⟩ ⟨0b11111011⟩ (by decide)⟩

/-- C6: ordering is determined purely by the evaluated truth values with
false strictly before true: `from_bool false < from_bool true`; for all
coins the comparison result is the Rust `bool` ordering of the two
evaluated truth values; the comparison returns `eq` exactly when the
coins compare equal; and `partial_cmp` always returns `some` of `cmp`. -/
theorem coin_C6 :
    (coinCmp (from_bool false) (from_bool true)).1 = Ordering.lt ∧
    (∀ a b : Coin, (coinCmp a b).1 = boolCmp a.to_bool b.to_bool) ∧
    (∀ a b : Coin, ((coinCmp a b).1 = Ordering.eq ↔ (coinEq a b).1 = true)) ∧
    (∀ a b : Coin, (coinPartialCmp a b).1 = some (coinCmp a b).1) := by
  refine ⟨by decide, ?_, ?_, ?_⟩
  · intro a b
    simp [coinCmp, Coin.to_bool_degauss]
  · intro a b
    simp only [coinCmp, coinEq, Coin.to_bool_degauss]
    cases ha : a.to_bool <;> cases hb : b.to_bool <;> simp [boolCmp]
  · intro a b
    simp [coinPartialCmp, coinCmp]

/-- C7: heal-on-compare — after an equality comparison, an ordering
comparison (`cmp` or `partial_cmp`), or a hash, each operand's storage
byte equals the canonical pattern (255 if its evaluated truth value is
true, 0 if false), and running the same operation again leaves the
states unchanged. -/
theorem coin_C7 (a b : Coin) :
    ((coinEq a b).2.1.cell = if (coinEq a b).2.1.to_bool then 255 else 0) ∧
    ((coinEq a b).2.2.cell = if (coinEq a b).2.2.to_bool then 255 else 0) ∧
    ((coinCmp a b).2.1.cell = if (coinCmp a b).2.1.to_bool then 255 else 0) ∧
    ((coinCmp a b).2.2.cell = if (coinCmp a b).2.2.to_bool then 255 else 0) ∧
    ((coinPartialCmp a b).2.1.cell
        = if (coinPartialCmp a b).2.1.to_bool then 255 else 0) ∧
    ((coinPartialCmp a b).2.2.cell
        = if (coinPartialCmp a b).2.2.to_bool then 255 else 0) ∧
    ((coinHash a).2.cell = if (coinHash a).2.to_bool then 255 else 0) ∧
    (coinEq (coinEq a b).2.1 (coinEq a b).2.2).2 = (coinEq a b).2 ∧
    (coinCmp (coinCmp a b).2.1 (coinCmp a b).2.2).2 = (coinCmp a b).2 ∧
    (coinHash (coinHash a).2).2 = (coinHash a).2 := by
  simp [coinEq, coinCmp, coinPartialCmp, coinHash, Coin.to_bool_degauss,
    Coin.degauss_degauss, Coin.cell_degauss]

/-- C8: the plain Boolean conversion (`to_bool` and both `From`
conversions to `bool`) never mutates the storage byte: the state after
the call is the input state, for every storage byte.  By contrast the
hash operation does rewrite a corrupted byte (251 becomes 255), so
healing is a side effect of eq/ord/hash only. -/
theorem coin_C8 (c : Coin) :
    (toBoolOp c).2 = c ∧
    (bool_from_coin_ref c).2 = c ∧
    (toBoolOp c).1 = c.to_bool ∧
    bool_from_coin c = c.to_bool ∧
    (bool_from_coin_ref c).1 = c.to_bool ∧
    (∀ x : Nat, (toBoolOp ⟨x⟩).2.cell = x) ∧
    (coinHash ⟨0b11111011⟩).2.cell = 255 := by
  refine ⟨rfl, rfl, rfl, rfl, rfl, fun x => rfl, by decide⟩
